import Mathlib

set_option autoImplicit false
set_option maxRecDepth 4000

/-!
Shallow embedding of the data-collection pipeline of the student-jobs-platform
repository: the schema validator (`jobDataValidator.ts`), the normalizer score
(`part_012`, `normalizeJobData`), the deduplicator (`Deduplicator.ts`), the base
scraper collection loop and change detection (`part_013`, `BaseScraper`), the
JobTech adapter loop (`page.tsx`, `JobTechService`), and the collection
orchestrator (`collectionOrchestrator.ts`).  TypeScript string-union values
(statuses, severities, impacts) are kept as Lean `String`s so the embedding
matches the source literals.  JavaScript `Date` objects are modelled as
`Option Int` (epoch milliseconds; `none` is an Invalid Date whose comparisons
are all false, as NaN comparisons are in JS); a field of type `Option MDate`
is `none` when the property is absent (`undefined`).  JS number arithmetic on
the score paths is modelled over `ℚ` (exact where the source values are small
integers and decimal fractions).
-/

/-- JS `String.prototype.toLowerCase` restricted to the ASCII range used by the
source keyword tables. -/
def lowerStr (s : String) : String := String.mk (s.toList.map Char.toLower)

/-- `sub` is a prefix of `hay` (helper for the JS `includes` model). -/
def prefixOfL : List Char → List Char → Bool
  | [], _ => true
  | _ :: _, [] => false
  | a :: as, b :: bs => a == b && prefixOfL as bs

/-- `sub` occurs as a contiguous substring of `hay`. -/
def infixOfL (sub : List Char) : List Char → Bool
  | [] => prefixOfL sub []
  | c :: rest => prefixOfL sub (c :: rest) || infixOfL sub rest

/-- JS `s.includes(pat)`. -/
def strIncludes (s pat : String) : Bool := infixOfL pat.toList s.toList

/-- A JS `Date` value: `some t` is a valid date at epoch-ms `t`, `none` is an
Invalid Date (`getTime()` is NaN). -/
abbrev MDate := Option Int

/-- Truthiness of an optional `Date` property: a `Date` object is always
truthy (even an Invalid Date); only an absent property is falsy. -/
def dateTruthy (d : Option MDate) : Bool := d.isSome

/-- `isValidDate` from `utils/validation.ts`: a present `Date` is valid iff
its time is not NaN. -/
def isValidDateV (d : MDate) : Bool := d.isSome

/-- JS `a < b` on two `Date`s; NaN comparisons are false. -/
def dateLt (a b : Option MDate) : Bool :=
  match a, b with
  | some (some x), some (some y) => decide (x < y)
  | _, _ => false

/-- JS `a > now` on a `Date` against the current clock. -/
def dateGtNow (a : Option MDate) (now : Int) : Bool :=
  match a with
  | some (some x) => decide (now < x)
  | _ => false

/-- JS `a < now` on a `Date` against the current clock. -/
def dateLtNow (a : Option MDate) (now : Int) : Bool :=
  match a with
  | some (some x) => decide (x < now)
  | _ => false

/-- Truthiness of an optional string property (absent and `""` are falsy). -/
def optTruthy (o : Option String) : Bool :=
  match o with
  | some s => !(s == "")
  | none => false

/-- `ValidationIssue` from `types/index.ts`: severity is one of the source
string literals `"info" | "warning" | "error"`. -/
structure ValidationIssue where
  field : String
  severity : String
  message : String
  code : String
deriving DecidableEq

/-- `ErrorDetails` from `types/index.ts` (severity literals
`"critical" | "error" | "warning" | "info"`); the `timestamp` and free-form
`context` fields are wall-clock/debug data with no bearing on control flow and
are omitted from the model. -/
structure ErrorDetails where
  code : String
  message : String
  severity : String
deriving DecidableEq

/-- `JobData.company` from `types/index.ts`. -/
structure Company where
  name : String
  organizationNumber : Option String := none
  website : Option String := none
  email : Option String := none
  phone : Option String := none
deriving DecidableEq

/-- `JobData.location` from `types/index.ts`; coordinates kept abstract as a
pair of integers scaled from the source floats (only presence matters). -/
structure LocationRec where
  city : Option String := none
  municipality : Option String := none
  region : Option String := none
  address : Option String := none
  postalCode : Option String := none
  coordinates : Option (Int × Int) := none
deriving DecidableEq

/-- `JobData.applicationDetails` from `types/index.ts`. -/
structure AppDetails where
  email : Option String := none
  url : Option String := none
  reference : Option String := none
  information : Option String := none
  deadlineDate : Option MDate := none
deriving DecidableEq

/-- A skill / education-requirement entry. -/
structure Skill where
  name : String
  required : Bool
deriving DecidableEq

/-- The `metadata` map of a job.  The model keeps the one key the pipeline
reads and writes (`studentRelevanceScore`); remaining source-specific extras
are opaque. -/
structure MetaData where
  studentRelevanceScore : Option ℚ := none
deriving DecidableEq

/-- `JobData` from `types/index.ts`.  Required string fields are `String`
(falsy iff empty); optional ones are `Option String`.  `publicationDate` is
`Option MDate`: `none` models an absent property, `some none` an Invalid
Date object.  `collectingIssues` is `collectingMetadata.validationIssues`. -/
structure JobData where
  externalId : String
  source : String
  sourceUrl : String
  title : String
  description : String
  descriptionFormatted : Option String := none
  company : Company
  location : LocationRec := {}
  applicationDetails : AppDetails := {}
  employmentType : Option String := none
  workingHoursType : Option String := none
  duration : Option String := none
  salary : Option String := none
  publicationDate : Option MDate := none
  lastPublicationDate : Option MDate := none
  expirationDate : Option MDate := none
  skills : List Skill := []
  metadata : MetaData := {}
  qualityScore : Option ℚ := none
  collectingIssues : List ValidationIssue := []
deriving DecidableEq

/-- Modelled platform behaviour: `isValidURL` from `utils/validation.ts` calls
the host WHATWG `URL` parser and accepts exactly the http(s) protocols; the
model accepts strings with an `http://` or `https://` scheme followed by a
nonempty remainder. -/
def isValidURL (s : String) : Bool :=
  (prefixOfL "http://".toList s.toList && decide (7 < s.toList.length)) ||
  (prefixOfL "https://".toList s.toList && decide (8 < s.toList.length))

/-- A character of the local part of the email regex in
`jobDataValidator.ts` / `utils/validation.ts`. -/
def emailLocalChar (c : Char) : Bool :=
  c.isAlphanum || c == '.' || c == '_' || c == '%' || c == '+' || c == '-'

/-- A character of the domain part of the email regex. -/
def emailDomChar (c : Char) : Bool :=
  c.isAlphanum || c == '.' || c == '-'

/-- Split a character list on a separator character. -/
def splitOnChar (sep : Char) : List Char → List (List Char)
  | [] => [[]]
  | x :: xs =>
    match splitOnChar sep xs with
    | [] => [[x]]
    | h :: t => if x == sep then [] :: h :: t else (x :: h) :: t

/-- The email regex of the validator: one nonempty local part of
local-characters, `@`, a nonempty domain of domain-characters, a final dot,
and an alphabetic TLD of length at least 2. -/
def isValidEmail (s : String) : Bool :=
  match splitOnChar '@' s.toList with
  | [loc, dom] =>
    (!loc.isEmpty) && loc.all emailLocalChar &&
    (match (splitOnChar '.' dom).reverse with
     | tld :: p :: rest =>
       decide (2 ≤ tld.length) && tld.all Char.isAlpha &&
       (p :: rest).all (fun seg => seg.all emailDomChar) &&
       (!rest.isEmpty || !p.isEmpty)
     | _ => false)
  | _ => false

/-- Issue constructor shorthand. -/
def mkIssue (field severity message code : String) : ValidationIssue :=
  { field := field, severity := severity, message := message, code := code }

/-- `validateRequiredFields` from `jobDataValidator.ts`: each missing required
value appends one error issue, in source order. -/
def validateRequiredFields (job : JobData) : List ValidationIssue :=
  (if job.externalId == "" then
    [mkIssue "externalId" "error" "External ID is required" "missing_required_field"] else []) ++
  (if job.title == "" then
    [mkIssue "title" "error" "Job title is required" "missing_required_field"] else []) ++
  (if job.source == "" then
    [mkIssue "source" "error" "Source identifier is required" "missing_required_field"] else []) ++
  (if job.sourceUrl == "" then
    [mkIssue "sourceUrl" "error" "Source URL is required" "missing_required_field"] else []) ++
  (if job.description == "" then
    [mkIssue "description" "error" "Job description is required" "missing_required_field"] else []) ++
  (if job.company.name == "" then
    [mkIssue "company.name" "error" "Company name is required" "missing_required_field"] else []) ++
  (if !(dateTruthy job.publicationDate) then
    [mkIssue "publicationDate" "error" "Publication date is required" "missing_required_field"] else [])

/-- `validateFormats` from `jobDataValidator.ts`, in source order. -/
def validateFormats (job : JobData) : List ValidationIssue :=
  (if (!(job.sourceUrl == "")) && !(isValidURL job.sourceUrl) then
    [mkIssue "sourceUrl" "error" "Source URL is not a valid URL" "invalid_format"] else []) ++
  (if optTruthy job.company.website && !(isValidURL (job.company.website.getD "")) then
    [mkIssue "company.website" "warning" "Company website is not a valid URL" "invalid_format"] else []) ++
  (if optTruthy job.applicationDetails.url && !(isValidURL (job.applicationDetails.url.getD "")) then
    [mkIssue "applicationDetails.url" "warning" "Application URL is not a valid URL" "invalid_format"] else []) ++
  (if optTruthy job.company.email && !(isValidEmail (job.company.email.getD "")) then
    [mkIssue "company.email" "warning" "Company email is not a valid email address" "invalid_format"] else []) ++
  (if optTruthy job.applicationDetails.email && !(isValidEmail (job.applicationDetails.email.getD "")) then
    [mkIssue "applicationDetails.email" "warning" "Application email is not a valid email address" "invalid_format"] else []) ++
  (if dateTruthy job.publicationDate && !(isValidDateV (job.publicationDate.getD none)) then
    [mkIssue "publicationDate" "error" "Publication date is not a valid date" "invalid_format"] else []) ++
  (if dateTruthy job.lastPublicationDate && !(isValidDateV (job.lastPublicationDate.getD none)) then
    [mkIssue "lastPublicationDate" "warning" "Last publication date is not a valid date" "invalid_format"] else []) ++
  (if dateTruthy job.expirationDate && !(isValidDateV (job.expirationDate.getD none)) then
    [mkIssue "expirationDate" "warning" "Expiration date is not a valid date" "invalid_format"] else []) ++
  (if dateTruthy job.applicationDetails.deadlineDate &&
      !(isValidDateV (job.applicationDetails.deadlineDate.getD none)) then
    [mkIssue "applicationDetails.deadlineDate" "warning"
      "Application deadline date is not a valid date" "invalid_format"] else [])

/-- The keyword list of `assessStudentRelevance`. -/
def studentKeywords : List String :=
  ["student", "internship", "intern", "trainee", "part-time", "extra", "junior"]

/-- The raw additive student-relevance count of `assessStudentRelevance`:
2 per keyword occurring in the title, 1 per keyword occurring in the
description, plus the three 2-point bonuses.  The source never caps it. -/
def relevanceRaw (job : JobData) : Nat :=
  2 * (studentKeywords.filter
        (fun k => strIncludes (lowerStr job.title) (lowerStr k))).length +
  (studentKeywords.filter
        (fun k => strIncludes (lowerStr job.description) (lowerStr k))).length +
  (if strIncludes (lowerStr (job.workingHoursType.getD "")) "part" then 2 else 0) +
  (if strIncludes (lowerStr (job.employmentType.getD "")) "temp" ||
      strIncludes (lowerStr (job.employmentType.getD "")) "summer" ||
      strIncludes (lowerStr (job.duration.getD "")) "month" ||
      strIncludes (lowerStr (job.duration.getD "")) "week" then 2 else 0) +
  (if strIncludes (lowerStr job.description) "no experience" ||
      strIncludes (lowerStr job.description) "no prior experience" then 2 else 0)

/-- `studentRelevanceScore / maxScore * 100` with `maxScore = 10`, written to
`job.metadata.studentRelevanceScore` by `assessStudentRelevance`. -/
def relevanceScore (job : JobData) : ℚ :=
  (relevanceRaw job : ℚ) / 10 * 100

/-- The extra info issue `assessStudentRelevance` appends when the raw count
is below 2. -/
def relevanceIssues (job : JobData) : List ValidationIssue :=
  if relevanceRaw job < 2 then
    [mkIssue "metadata.studentRelevanceScore" "info"
      "Low student relevance score" "low_student_relevance"]
  else []

/-- `validateBusinessRules` from `jobDataValidator.ts` (the clock `now` stands
for the `new Date()` calls), in source order, ending with the relevance
assessment issue. -/
def validateBusinessRules (now : Int) (job : JobData) : List ValidationIssue :=
  (if (!(job.title == "")) && decide (job.title.length < 3) then
    [mkIssue "title" "warning" "Job title is too short" "title_too_short"] else []) ++
  (if (!(job.title == "")) && decide (100 < job.title.length) then
    [mkIssue "title" "warning" "Job title is too long" "title_too_long"] else []) ++
  (if (!(job.description == "")) && decide (job.description.length < 50) then
    [mkIssue "description" "warning" "Job description is too short" "description_too_short"] else []) ++
  (if (!(job.description == "")) && decide (10000 < job.description.length) then
    [mkIssue "description" "warning" "Job description is too long" "description_too_long"] else []) ++
  (if dateTruthy job.publicationDate && dateGtNow job.publicationDate now then
    [mkIssue "publicationDate" "warning" "Publication date is in the future"
      "future_publication_date"] else []) ++
  (if dateTruthy job.publicationDate && dateTruthy job.expirationDate &&
      dateLt job.expirationDate job.publicationDate then
    [mkIssue "expirationDate" "error" "Expiration date is before publication date"
      "expiration_before_publication"] else []) ++
  (if dateTruthy job.publicationDate && dateTruthy job.applicationDetails.deadlineDate &&
      dateLt job.applicationDetails.deadlineDate job.publicationDate then
    [mkIssue "applicationDetails.deadlineDate" "warning"
      "Application deadline is before publication date" "deadline_before_publication"] else []) ++
  (if dateTruthy job.applicationDetails.deadlineDate &&
      dateLtNow job.applicationDetails.deadlineDate now then
    [mkIssue "applicationDetails.deadlineDate" "info"
      "Application deadline is in the past" "deadline_in_past"] else []) ++
  relevanceIssues job

/-- The result record of `validateJobData`. -/
structure ValidationResult where
  valid : Bool
  issues : List ValidationIssue
deriving DecidableEq

/-- `validateJobData` from `jobDataValidator.ts`: accumulates the three passes,
computes `valid = !issues.some(severity == error)`, and (through the
`assessStudentRelevance` side effect) returns the job with
`metadata.studentRelevanceScore` overwritten by the computed score. -/
def validateJobData (now : Int) (job : JobData) : ValidationResult × JobData :=
  let issues := validateRequiredFields job ++ validateFormats job ++
    validateBusinessRules now job
  let hasErrors := issues.any (fun i => i.severity == "error")
  ({ valid := !hasErrors, issues := issues },
   { job with metadata := { job.metadata with
       studentRelevanceScore := some (relevanceScore job) } })

/-- Title block of `calculateQualityScore` (`part_012` lines 294-304). -/
def titlePoints (job : JobData) : ℚ :=
  if !(job.title == "") then
    (if 20 < job.title.length ∧ job.title.length < 100 then 15
     else if 10 < job.title.length then 10 else 5)
  else 0

/-- Description block (lines 306-318). -/
def descriptionPoints (job : JobData) : ℚ :=
  if !(job.description == "") then
    (if 500 < job.description.length then 30
     else if 200 < job.description.length then 20
     else if 100 < job.description.length then 10 else 5)
  else 0

/-- Company block (lines 320-325); the `if (job.company)` guard is always
truthy. -/
def companyPoints (job : JobData) : ℚ :=
  (if !(job.company.name == "") then 3 else 0) +
  (if optTruthy job.company.website then 3 else 0) +
  (if optTruthy job.company.email || optTruthy job.company.phone then 4 else 0)

/-- Location block (lines 327-332); the `if (job.location)` guard is always
truthy. -/
def locationPoints (job : JobData) : ℚ :=
  (if optTruthy job.location.city then 5 else 0) +
  (if optTruthy job.location.address then 3 else 0) +
  (if job.location.coordinates.isSome then 2 else 0)

/-- Application-details block (lines 334-338). -/
def applicationPoints (job : JobData) : ℚ :=
  (if optTruthy job.applicationDetails.url || optTruthy job.applicationDetails.email
    then 10 else 0) +
  (if dateTruthy job.applicationDetails.deadlineDate then 5 else 0)

/-- Skills block (lines 340-343). -/
def skillPoints (job : JobData) : ℚ :=
  if 0 < job.skills.length then min (2 * (job.skills.length : ℚ)) 10 else 0

/-- Relevance block (lines 345-348): the truthiness guard skips an absent or
zero relevance value; otherwise a tenth of the stored value is added. -/
def relevancePoints (job : JobData) : ℚ :=
  match job.metadata.studentRelevanceScore with
  | some q => if q == 0 then 0 else q / 10
  | none => 0

/-- `calculateQualityScore` from `part_012` (`normalizeJobData` module):
additive component scores, the relevance tenth, and a final
`Math.min(score, 100)` cap. -/
def calculateQualityScore (job : JobData) : ℚ :=
  min (titlePoints job + descriptionPoints job + companyPoints job +
    locationPoints job + applicationPoints job + skillPoints job +
    relevancePoints job) 100

/-- `JobDto` from `data-collection/interfaces/DataSource.ts` (the fields the
Deduplicator reads). -/
structure JobDto where
  sourceId : String
  sourceJobId : String
  title : String
  company : String
deriving DecidableEq

/-- JS `\s` on the ASCII range (the whitespace class of the first
`replace` in `normalizeForMatching`). -/
def isJsWhitespace (c : Char) : Bool :=
  c == ' ' || c == '\t' || c == '\n' || c == '\r' || c == '\x0b' || c == '\x0c'

/-- JS `\w`: `[A-Za-z0-9_]`. -/
def isJsWordChar (c : Char) : Bool := c.isAlphanum || c == '_'

/-- `Deduplicator.normalizeForMatching`: lowercase, strip whitespace, strip
non-word characters. -/
def normalizeForMatching (input : String) : String :=
  let lowered := (lowerStr input).toList
  let noWs := lowered.filter (fun c => !(isJsWhitespace c))
  String.mk (noWs.filter isJsWordChar)

/-- The exact dedup key `sourceId:sourceJobId`. -/
def exactKey (j : JobDto) : String := j.sourceId ++ ":" ++ j.sourceJobId

/-- The fuzzy dedup key: `normalizeForMatching(title:company)`. -/
def fuzzyKey (j : JobDto) : String := normalizeForMatching (j.title ++ ":" ++ j.company)

/-- Membership test in the `existingJobMap` lookup built from the stored
jobs (a `Map.has` on the exact key). -/
def hasExactMatch (existingJobs : List JobDto) (j : JobDto) : Bool :=
  existingJobs.any (fun e => exactKey e == exactKey j)

/-- The output of `Deduplicator.deduplicate`, with the count of
cross-source-duplicate log lines as the only modelled side effect. -/
structure DedupResult where
  jobsToCreate : List JobDto
  jobsToUpdate : List JobDto
  crossSourceLogs : Nat
deriving DecidableEq

/-- `Deduplicator.deduplicate` from `pipeline/Deduplicator.ts`: the lookup
maps are built from `existingJobs` only; each incoming job goes to the update
list on an exact `(source, externalId)` key hit, and to the create list
otherwise; a cross-source log line fires only when a *stored* job from a
different source shares the fuzzy key. -/
def deduplicate : List JobDto → List JobDto → DedupResult
  | [], _ => { jobsToCreate := [], jobsToUpdate := [], crossSourceLogs := 0 }
  | j :: rest, existingJobs =>
    let acc := deduplicate rest existingJobs
    if hasExactMatch existingJobs j then
      { acc with jobsToUpdate := j :: acc.jobsToUpdate }
    else
      let possibleMatches := existingJobs.filter (fun e => fuzzyKey e == fuzzyKey j)
      let otherSourceMatches := possibleMatches.filter (fun e => !(e.sourceId == j.sourceId))
      let logged := if 0 < possibleMatches.length ∧ 0 < otherSourceMatches.length then 1 else 0
      { acc with jobsToCreate := j :: acc.jobsToCreate,
                 crossSourceLogs := acc.crossSourceLogs + logged }

/-- `CollectionResult` from `types/index.ts`; `timestamp` and `durationMs`
are wall-clock data and omitted. Status values are the source string
literals. -/
structure CollectionResult where
  sourceId : String
  status : String
  jobsCollected : Nat
  jobsProcessed : Nat
  jobsStored : Nat
  validationFailures : Nat
  errors : List ErrorDetails
  jobs : List JobData
deriving DecidableEq

/-- The per-record validation block shared verbatim by `BaseScraper.collect`
(`part_013` lines 160-175) and `JobTechService.collectJobs` (`page.tsx`
lines 613-627): returns the job to include (if any) and whether the
record counted as a validation failure.  The invalid branch re-includes the
job only when every issue is non-error — which never holds when
`valid = false`. -/
def processCollectedJob (now : Int) (job : JobData) : Option JobData × Bool :=
  let vres := validateJobData now job
  if vres.1.valid then (some vres.2, false)
  else
    let flagged := { vres.2 with collectingIssues := vres.1.issues }
    if vres.1.issues.all (fun i => !(i.severity == "error")) then (some flagged, true)
    else (none, true)

/-- One unit of work of the scraper collection loop: either the job data
extracted from a detail URL or the per-URL extraction failure. -/
inductive FetchOutcome
  | ok (j : JobData)
  | err (url msg : String)
deriving DecidableEq

/-- The per-URL `ErrorDetails` of the scraper loop catch block. -/
def extractionError (url msg : String) : ErrorDetails :=
  { code := "job_extraction_error",
    message := "Failed to extract job data from " ++ url ++ ": " ++ msg,
    severity := "error" }

/-- The loop body of `BaseScraper.collect`: accumulates included jobs,
per-URL errors, the processed count and the validation-failure count, in
source order. -/
def scraperCollectLoop (now : Int) : List FetchOutcome →
    List JobData × List ErrorDetails × Nat × Nat
  | [] => ([], [], 0, 0)
  | o :: rest =>
    let acc := scraperCollectLoop now rest
    match o with
    | .err url msg => (acc.1, extractionError url msg :: acc.2.1, acc.2.2.1, acc.2.2.2)
    | .ok j =>
      match processCollectedJob now j with
      | (some pj, inv) =>
        (pj :: acc.1, acc.2.1, acc.2.2.1 + 1, acc.2.2.2 + (if inv then 1 else 0))
      | (none, _) => (acc.1, acc.2.1, acc.2.2.1, acc.2.2.2 + 1)

/-- The shared status computation of the two collect loops:
`errors.length === 0 ? success : (jobs.length > 0 ? partial : failure)`. -/
def collectStatus (errors : List ErrorDetails) (includedCount : Nat) : String :=
  if errors.isEmpty then "success"
  else if 0 < includedCount then "partial" else "failure"

/-- `BaseScraper.collect` from `part_013` (success path): the result record
built after the URL loop.  `jobsCollected` is the URL count, `jobsStored` is
set to `jobsData.length` before any persistence happens. -/
def scraperCollect (sourceId : String) (now : Int) (outcomes : List FetchOutcome) :
    CollectionResult :=
  let acc := scraperCollectLoop now outcomes
  { sourceId := sourceId,
    status := collectStatus acc.2.1 acc.1.length,
    jobsCollected := outcomes.length,
    jobsProcessed := acc.2.2.1,
    jobsStored := acc.1.length,
    validationFailures := acc.2.2.2,
    errors := acc.2.1,
    jobs := acc.1 }

/-- The fields of a `JobTechAd` (`jobtechTypes.ts`) that `jobtechToJobData`
reads.  Parsed date strings are already modelled as `Option MDate`: the outer
`none` is a falsy/absent source string, `some none` a string that parses to an
Invalid Date.  The ad carries no quality score and no relevance score — no
such fields exist in the API payload type. -/
structure JobTechAd where
  id : String
  headline : String
  employerName : String
  employerOrgNumber : Option String := none
  employerUrl : Option String := none
  employerEmail : Option String := none
  employerPhone : Option String := none
  descriptionText : String
  descriptionTextFormatted : Option String := none
  city : Option String := none
  municipality : Option String := none
  region : Option String := none
  streetAddress : Option String := none
  postcode : Option String := none
  coordinates : Option (Int × Int) := none
  applicationEmail : Option String := none
  applicationUrl : Option String := none
  applicationReference : Option String := none
  applicationInformation : Option String := none
  applicationDeadline : Option MDate := none
  employmentTypeLabel : Option String := none
  workingHoursTypeLabel : Option String := none
  durationLabel : Option String := none
  salaryDescription : Option String := none
  publicationDate : Option MDate := none
  lastPublicationDate : Option MDate := none
  removedDate : Option MDate := none
  mustSkills : List String := []
  niceSkills : List String := []
deriving DecidableEq

/-- `jobtechToJobData` from the JobTech mapper (`page.tsx` lines 870-969):
builds the unified record.  `publicationDate` falls back to `Date.now()` when
the source string is falsy; the coordinate pair is swapped; `metadata` is
populated only with source extras — no `studentRelevanceScore` — and
`qualityScore` is never assigned (it stays `undefined`). -/
def jobtechToJobData (now : Int) (ad : JobTechAd) : JobData :=
  { externalId := ad.id,
    source := "jobtech",
    sourceUrl := "https://arbetsformedlingen.se/platsbanken/annonser/" ++ ad.id,
    title := ad.headline,
    company := { name := ad.employerName,
                 organizationNumber := ad.employerOrgNumber,
                 website := ad.employerUrl,
                 email := ad.employerEmail,
                 phone := ad.employerPhone },
    description := ad.descriptionText,
    descriptionFormatted := ad.descriptionTextFormatted,
    location := { city := ad.city,
                  municipality := ad.municipality,
                  region := ad.region,
                  address := ad.streetAddress,
                  postalCode := ad.postcode,
                  coordinates := ad.coordinates.map (fun p => (p.2, p.1)) },
    applicationDetails := { email := ad.applicationEmail,
                            url := ad.applicationUrl,
                            reference := ad.applicationReference,
                            information := ad.applicationInformation,
                            deadlineDate := ad.applicationDeadline },
    employmentType := ad.employmentTypeLabel,
    workingHoursType := ad.workingHoursTypeLabel,
    duration := ad.durationLabel,
    salary := ad.salaryDescription,
    publicationDate := some (ad.publicationDate.getD (some now)),
    lastPublicationDate := ad.lastPublicationDate,
    expirationDate := ad.removedDate,
    skills := ad.mustSkills.map (fun n => { name := n, required := true }) ++
              ad.niceSkills.map (fun n => { name := n, required := false }),
    metadata := { studentRelevanceScore := none },
    qualityScore := none,
    collectingIssues := [] }

/-- The processing loop of `JobTechService.collectJobs` (`page.tsx` lines
608-640): maps each ad, validates it, and includes or drops it exactly as
the scraper loop does; returns the processed jobs and the
validation-failure count. -/
def jobtechProcessLoop (now : Int) : List JobTechAd → List JobData × Nat
  | [] => ([], 0)
  | ad :: rest =>
    let acc := jobtechProcessLoop now rest
    match processCollectedJob now (jobtechToJobData now ad) with
    | (some pj, inv) => (pj :: acc.1, acc.2 + (if inv then 1 else 0))
    | (none, _) => (acc.1, acc.2 + 1)

/-- The result record built by `JobTechService.collectJobs` (lines 644-655):
`jobsStored` is initialised to `processedJobs.length` ("will be updated when
jobs are actually stored"); `errors` holds the page-fetch failures. -/
def jobtechCollect (now : Int) (ads : List JobTechAd) (pageErrors : List ErrorDetails) :
    CollectionResult :=
  let acc := jobtechProcessLoop now ads
  { sourceId := "jobtech",
    status := collectStatus pageErrors acc.1.length,
    jobsCollected := ads.length,
    jobsProcessed := acc.1.length,
    jobsStored := acc.1.length,
    validationFailures := acc.2,
    errors := pageErrors,
    jobs := acc.1 }

/-- The quality score the repository persists (`jobRepository.ts` lines 118
and 189): `job.qualityScore || 0`, so an absent or zero score is stored
as 0. -/
def storedQualityScore (j : JobData) : ℚ :=
  match j.qualityScore with
  | some q => if q == 0 then 0 else q
  | none => 0

/-- The save-failure `ErrorDetails` of the orchestrator save block. -/
def mkSaveError (msg : String) : ErrorDetails :=
  { code := "save_error",
    message := "Failed to save jobs: " ++ msg,
    severity := "error" }

/-- Outcome of `jobRepository.saveJobs(result.jobs)`: the repository swallows
individual per-job failures inside its loop and returns the count it actually
stored; a thrown error escapes only from outside that loop, with nothing
stored (`jobRepository.ts` lines 20-44). -/
inductive SaveOutcome
  | saved (count : Nat)
  | threw (msg : String)
deriving DecidableEq

/-- How many records a save outcome actually put in the store. -/
def actuallyStored : SaveOutcome → Nat
  | .saved n => n
  | .threw _ => 0

/-- The save-jobs block of `CollectionOrchestrator.collectFromSource`
(`collectionOrchestrator.ts` lines 190-218): runs only when the result has
jobs; on success it overwrites `jobsStored` with the saved count; on a thrown
persistence failure it appends a `save_error` of severity `error` and
downgrades `success` to `partial` only if the result's `jobsStored` field is
zero.  The failure never propagates: the block always yields a result. -/
def saveJobsBlock (result : CollectionResult) (save : SaveOutcome) : CollectionResult :=
  if 0 < result.jobs.length then
    match save with
    | .saved n => { result with jobsStored := n }
    | .threw msg =>
      let r1 := { result with errors := result.errors ++ [mkSaveError msg] }
      if r1.jobsStored == 0 then
        { r1 with status := if r1.status == "success" then "partial" else r1.status }
      else r1
  else result

/-- The orchestrator state relevant to per-source exclusivity: the
`activeTasks` map (source id to the in-flight task promise, identified here
by a task id), the count of adapter collection runs ever started, and a
fresh-id counter. -/
structure OrchState where
  activeTasks : List (String × Nat)
  collectStarts : Nat
  nextTaskId : Nat
deriving DecidableEq

/-- `activeTasks.get(sourceId)` / `activeTasks.has(sourceId)`. -/
def lookupActive (st : OrchState) (sid : String) : Option Nat :=
  (st.activeTasks.find? (fun p => p.1 == sid)).map (fun p => p.2)

/-- What a call to `collectFromSource` does synchronously: either coalesce
onto the in-flight task or start a new one. -/
inductive CollectEntry
  | coalesced (task : Nat)
  | started (task : Nat)
deriving DecidableEq

/-- The synchronous prologue of `CollectionOrchestrator.collectFromSource`
(lines 172-234): if `activeTasks` already holds a task for the source, that
task is returned unchanged and no new adapter run starts (the state is
untouched, `collectStarts` in particular); otherwise a new task is created,
registered in `activeTasks`, and the adapter run is started.  JS runs this
prologue atomically (single-threaded up to the first await). -/
def collectFromSourceEntry (st : OrchState) (sid : String) : CollectEntry × OrchState :=
  match lookupActive st sid with
  | some t => (.coalesced t, st)
  | none =>
    (.started st.nextTaskId,
     { activeTasks := st.activeTasks ++ [(sid, st.nextTaskId)],
       collectStarts := st.collectStarts + 1,
       nextTaskId := st.nextTaskId + 1 })

/-- How a collection task settles: with a result or with a thrown error. -/
inductive TaskOutcome
  | ok (r : CollectionResult)
  | thrown (e : String)
deriving DecidableEq

/-- The `finally` block of the collection task (lines 224-227):
`activeTasks.delete(sourceId)` runs when the task settles, whatever the
outcome was. -/
def settleRun (st : OrchState) (sid : String) (_outcome : TaskOutcome) : OrchState :=
  { st with activeTasks := st.activeTasks.filter (fun p => !(p.1 == sid)) }

/-- The behaviour of one registered source adapter during a batch run:
`collectFromSource` either resolves with a result or rejects. -/
inductive SourceBehavior
  | returns (r : CollectionResult)
  | throws (e : String)
deriving DecidableEq

/-- One entry of the orchestrator registry (`this.sources`), in registration
(Map insertion) order.  The orchestrator `SourceConfig` (`types/index.ts`)
has no priority field. -/
structure RegSource where
  id : String
  enabled : Bool
  behavior : SourceBehavior
deriving DecidableEq

/-- The per-source catch block of `collectFromAllSources` (lines 140-150). -/
def collectionError (sid e : String) : ErrorDetails :=
  { code := "collection_error",
    message := "Failed to collect from source " ++ sid ++ ": " ++ e,
    severity := "error" }

/-- `CollectionOrchestrator.collectFromAllSources` (lines 125-156): iterates
`this.sources.entries()` in registration order, skips disabled sources,
catches each source's exception into a logged error list, and returns the
aggregated results.  The third component records, in order, the sources for
which `collectFromSource` was invoked. -/
def orchCollectAll : List RegSource → List CollectionResult × List ErrorDetails × List String
  | [] => ([], [], [])
  | s :: rest =>
    let acc := orchCollectAll rest
    if !s.enabled then acc
    else
      match s.behavior with
      | .returns r => (r :: acc.1, acc.2.1, s.id :: acc.2.2)
      | .throws e => (acc.1, collectionError s.id e :: acc.2.1, s.id :: acc.2.2)

/-- `StructuralChange` from `types/index.ts` (impact literals
`"low" | "medium" | "high"`). -/
structure StructuralChange where
  elementType : String
  path : String
  impact : String
  message : String
deriving DecidableEq

/-- One configured field selector of `analyzeStructuralChanges`, with its
match counts in the old and the new snapshot. -/
structure FieldCheck where
  field : String
  selector : String
  oldCount : Nat
  newCount : Nat
deriving DecidableEq

/-- The selector match counts `analyzeStructuralChanges` obtains from the old
snapshot and the newly fetched page via cheerio. -/
structure SnapshotDiff where
  listingSelector : String
  detailLinkSelector : String
  oldListing : Nat
  newListing : Nat
  oldLink : Nat
  newLink : Nat
  fields : List FieldCheck
deriving DecidableEq

/-- The listing-selector block of `analyzeStructuralChanges` (`part_013`
lines 521-552); the `> 50%` threshold `Math.abs(old - new) > old * 0.5` is
exact on these integer counts and is written in the equivalent doubled
integer form. -/
def listingChanges (d : SnapshotDiff) : List StructuralChange :=
  if d.oldListing == 0 && d.newListing == 0 then
    [{ elementType := "selector", path := d.listingSelector, impact := "high",
       message := "Listing selector not found in old or new snapshot" }]
  else if d.oldListing == 0 then
    [{ elementType := "selector", path := d.listingSelector, impact := "low",
       message := "Listing selector not found in old snapshot but found in new" }]
  else if d.newListing == 0 then
    [{ elementType := "selector", path := d.listingSelector, impact := "high",
       message := "Listing selector found in old snapshot but not in new" }]
  else if decide ((d.oldListing : Int) <
      2 * (((d.oldListing : Int) - (d.newListing : Int)).natAbs : Int)) then
    [{ elementType := "selector", path := d.listingSelector, impact := "medium",
       message := "Significant change in number of listings" }]
  else []

/-- The detail-link block (lines 554-581), guarded by a nonempty new listing
count. -/
def linkChanges (d : SnapshotDiff) : List StructuralChange :=
  if 0 < d.newListing then
    (if d.oldLink == 0 && d.newLink == 0 then
      [{ elementType := "selector", path := d.detailLinkSelector, impact := "high",
         message := "Detail link selector not found in old or new snapshot" }]
    else if d.oldLink == 0 then
      [{ elementType := "selector", path := d.detailLinkSelector, impact := "low",
         message := "Detail link selector not found in old snapshot but found in new" }]
    else if d.newLink == 0 then
      [{ elementType := "selector", path := d.detailLinkSelector, impact := "high",
         message := "Detail link selector found in old snapshot but not in new" }]
    else [])
  else []

/-- The per-field block (lines 584-612). -/
def fieldChanges (f : FieldCheck) : List StructuralChange :=
  if f.oldCount == 0 && f.newCount == 0 then
    [{ elementType := "field", path := f.selector, impact := "medium",
       message := "Field selector for " ++ f.field ++ " not found in old or new snapshot" }]
  else if f.oldCount == 0 then
    [{ elementType := "field", path := f.selector, impact := "low",
       message := "Field selector for " ++ f.field ++
         " not found in old snapshot but found in new" }]
  else if f.newCount == 0 then
    [{ elementType := "field", path := f.selector, impact := "high",
       message := "Field selector for " ++ f.field ++
         " found in old snapshot but not in new" }]
  else []

/-- `BaseScraper.analyzeStructuralChanges` (`part_013` lines 492-629) on the
selector counts of the two snapshots, in source push order. -/
def analyzeStructuralChanges (d : SnapshotDiff) : List StructuralChange :=
  listingChanges d ++ linkChanges d ++ d.fields.flatMap fieldChanges

/-- `ChangeDetectionResult` from `types/index.ts` (status literals
`"unchanged" | "minor_changes" | "major_changes" | "error"`). -/
structure ChangeDetection where
  sourceId : String
  status : String
  changes : List StructuralChange
  canAdaptAutomatically : Bool
deriving DecidableEq

/-- `BaseScraper.detectStructuralChanges` (`part_013` lines 242-311): first
run and equal fingerprints report `unchanged`; on differing fingerprints the
discrepancies are classified and `canAdaptAutomatically` is true exactly when
no high-impact discrepancy exists, with the status `minor_changes` in that
case and `major_changes` otherwise. -/
def detectStructuralChanges (sid : String) (oldFp : Option String) (newFp : String)
    (diff : SnapshotDiff) : ChangeDetection :=
  match oldFp with
  | none =>
    { sourceId := sid, status := "unchanged", changes := [], canAdaptAutomatically := true }
  | some f =>
    if f == newFp then
      { sourceId := sid, status := "unchanged", changes := [], canAdaptAutomatically := true }
    else
      let changes := analyzeStructuralChanges diff
      let majorChanges := changes.filter (fun c => c.impact == "high")
      let canAdapt := majorChanges.isEmpty
      { sourceId := sid,
        status := if canAdapt then "minor_changes" else "major_changes",
        changes := changes,
        canAdaptAutomatically := canAdapt }

/-- `CollectionOrchestrator.detectSourceChanges` (lines 271-311): on an
`unchanged` result it returns early; otherwise it notifies exactly when the
filtered high-impact change list is nonempty. -/
def detectSourceChangesNotifies (res : ChangeDetection) : Bool :=
  if res.status == "unchanged" then false
  else !(res.changes.filter (fun c => c.impact == "high")).isEmpty

/-- `retryConfig` from `types/index.ts` / `sourceConfigs.ts`. -/
structure RetryConfig where
  maxRetries : Nat
  initialDelay : Nat
  backoffFactor : Nat
deriving DecidableEq

/-- `jobTechConfig.retryConfig` from `sourceConfigs.ts` lines 17-21. -/
def jobTechRetryConfig : RetryConfig :=
  { maxRetries := 3, initialDelay := 1000, backoffFactor := 2 }

/-- The outcome the external endpoint gives to one attempt. -/
inductive ReqOutcome
  | ok
  | fail (status : Nat)
deriving DecidableEq

/-- The retry interceptor `JobTechService.handleApiError` (`page.tsx` lines
750-783), unrolled over attempt indices: attempt `k` carries
`__retryCount = k`; on failure with `k < maxRetries` it sleeps
`initialDelay * backoffFactor ^ k` and reissues the request; after exhausting
retries the original error is rethrown.  Returns the list of delays slept and
whether the request ultimately resolved. -/
def runWithRetry (cfg : RetryConfig) (respond : Nat → ReqOutcome) (k : Nat) :
    List Nat × Bool :=
  match respond k with
  | .ok => ([], true)
  | .fail _ =>
    if h : k < cfg.maxRetries then
      let d := cfg.initialDelay * cfg.backoffFactor ^ k
      let acc := runWithRetry cfg respond (k + 1)
      (d :: acc.1, acc.2)
    else ([], false)
termination_by cfg.maxRetries - k
decreasing_by omega

/-- One source of the parallel `DataCollector` pipeline
(`interfaces/DataSource.ts`): these sources do carry a configured priority.
`throws` is `some e` when its `collect()` path rejects. -/
structure DCSource where
  id : String
  isEnabled : Bool
  priority : Int
  throws : Option String
deriving DecidableEq

/-- Stable insertion preserving descending priority: a later source is placed
after all already-sorted sources of greater-or-equal priority, matching the
stable JS `sort((a, b) => b.priority - a.priority)`. -/
def insertDesc (s : DCSource) : List DCSource → List DCSource
  | [] => [s]
  | t :: ts => if t.priority < s.priority then s :: t :: ts else t :: insertDesc s ts

/-- The sorted order `DataCollector.collectFromAllSources` iterates. -/
def sortByPriorityDesc (l : List DCSource) : List DCSource :=
  l.foldl (fun acc s => insertDesc s acc) []

/-- `DataCollector.collectFromAllSources` (`DataCollector.ts` lines 84-103):
filters enabled sources, sorts them by descending priority, and awaits each
in turn inside a try/catch that only logs; its TypeScript return type is
`Promise<void>` — no results are aggregated.  The model returns the execution
trace: each processed source id with whether its collection succeeded. -/
def dcCollectFromAllSources (sources : List DCSource) : List (String × Bool) :=
  (sortByPriorityDesc (sources.filter (fun s => s.isEnabled))).map
    (fun s => (s.id, s.throws.isNone))

/-- A reference clock (epoch ms) for the concrete runs. -/
def nowC : Int := 1000000

/-- A plain description of legal length with none of the student keywords. -/
def descC : String := "We are looking for someone to help us build things."

/-- A record whose only validation flaw is a warning-level short title (plus
a possible info issue): used to exercise warning-only validity. -/
def jobC5 : JobData :=
  { externalId := "a1", source := "test",
    sourceUrl := "https://example.com/jobs/1",
    title := "ab", description := descC,
    company := { name := "Acme" },
    publicationDate := some (some 500000) }

/-- A record missing `company.name` and valid in every other respect. -/
def jobC2 : JobData :=
  { externalId := "b2", source := "academic-work",
    sourceUrl := "https://example.com/jobs/2",
    title := "Student Developer", description := descC,
    company := { name := "" },
    publicationDate := some (some 500000) }

/-- A fully valid record (clean status, one stored job). -/
def jobC8 : JobData :=
  { externalId := "c3", source := "academic-work",
    sourceUrl := "https://example.com/jobs/3",
    title := "Student Developer", description := descC,
    company := { name := "Acme AB" },
    publicationDate := some (some 500000) }

/-- A record whose title contains all seven student keywords, driving the raw
relevance count to 14. -/
def jobC4 : JobData :=
  { externalId := "d4", source := "test",
    sourceUrl := "https://example.com/jobs/4",
    title := "Student Internship Intern Trainee Part-Time Extra Junior",
    description := descC,
    company := { name := "Acme" },
    publicationDate := some (some 500000) }

/-- A job carrying a pipeline-computed (nonnegative) relevance score. -/
def jobC4w : JobData :=
  { externalId := "c3", source := "academic-work",
    sourceUrl := "https://example.com/jobs/3",
    title := "Student Developer", description := descC,
    company := { name := "Acme AB" },
    publicationDate := some (some 500000),
    metadata := { studentRelevanceScore := some 20 } }

/-- Two incoming records with identical title and company, different sources,
and no stored counterpart (Scenario 1 of the spec). -/
def r1C3 : JobDto :=
  { sourceId := "jobtech", sourceJobId := "1",
    title := "Student Developer", company := "Acme AB" }

/-- See `r1C3`. -/
def r2C3 : JobDto :=
  { sourceId := "academic-work", sourceJobId := "1",
    title := "Student Developer", company := "Acme AB" }

/-- A stored record from a third source sharing the fuzzy key with `r1C3`. -/
def e3C3 : JobDto :=
  { sourceId := "other-board", sourceJobId := "77",
    title := "Student developer", company := "ACME AB" }

/-- An orchestrator state with one in-flight collection for `jobtech`. -/
def st0C1 : OrchState :=
  { activeTasks := [("jobtech", 7)], collectStarts := 3, nextTaskId := 9 }

/-- Selector counts for a listing page that kept its listing selector but
dropped its detail-link selector entirely (Scenario 3). -/
def diffC6 : SnapshotDiff :=
  { listingSelector := ".job-list .item", detailLinkSelector := "a.detail",
    oldListing := 10, newListing := 10, oldLink := 5, newLink := 0, fields := [] }

/-- The change-detection result for `diffC6` under differing fingerprints. -/
def detC6 : ChangeDetection :=
  detectStructuralChanges "academic-work" (some "fp-old") "fp-new" diffC6

/-- An endpoint returning HTTP 429 on the first three attempts, then
succeeding (Scenario 4). -/
def respondC7 : Nat → ReqOutcome := fun k => if k < 3 then .fail 429 else .ok

/-- The collection result of a clean one-job scraper run. -/
def resultC8 : CollectionResult := scraperCollect "academic-work" nowC [.ok jobC8]

/-- An empty successful result for a given source. -/
def okResult (sid : String) : CollectionResult :=
  { sourceId := sid, status := "success", jobsCollected := 0, jobsProcessed := 0,
    jobsStored := 0, validationFailures := 0, errors := [], jobs := [] }

/-- Three enabled orchestrator sources registered in the order alpha, beta,
gamma; the second one throws (Scenario 5). -/
def regC9 : List RegSource :=
  [{ id := "alpha", enabled := true, behavior := .returns (okResult "alpha") },
   { id := "beta", enabled := true, behavior := .throws "boom" },
   { id := "gamma", enabled := true, behavior := .returns (okResult "gamma") }]

/-- The same three sources as `DataCollector` sources with configured
priorities 1, 2, 3 (ascending in registration order). -/
def dcC9 : List DCSource :=
  [{ id := "alpha", isEnabled := true, priority := 1, throws := none },
   { id := "beta", isEnabled := true, priority := 2, throws := some "boom" },
   { id := "gamma", isEnabled := true, priority := 3, throws := none }]

/-- A well-formed JobTech ad. -/
def adC10 : JobTechAd :=
  { id := "123", headline := "Student Developer", employerName := "Acme AB",
    descriptionText := descC, publicationDate := some (some 500000) }

/-- A throwaway default job record (only used as a `getD` fallback). -/
def dummyJob : JobData :=
  { externalId := "", source := "", sourceUrl := "", title := "",
    description := "", company := { name := "" } }

/-- The job the JobTech processing loop emits for `adC10`. -/
def jC10 : JobData :=
  ((processCollectedJob nowC (jobtechToJobData nowC adC10)).1).getD dummyJob

/-- C5: for every run of `validateJobData` on any job record, the returned
valid flag is false if and only if at least one issue in the returned issues
list has severity error; a record whose issues are all warning or info has
valid = true. -/
theorem validateJobData_valid_iff_error (now : Int) (job : JobData) :
    ((validateJobData now job).1.valid = false ↔
      ∃ i ∈ (validateJobData now job).1.issues, i.severity = "error") ∧
    ((∀ i ∈ (validateJobData now job).1.issues, i.severity ≠ "error") →
      (validateJobData now job).1.valid = true) := by
  have hmain : ∀ L : List ValidationIssue,
      ((!L.any fun i => i.severity == "error") = false ↔
        ∃ i ∈ L, i.severity = "error") ∧
      ((∀ i ∈ L, i.severity ≠ "error") →
        (!L.any fun i => i.severity == "error") = true) := by
    intro L
    constructor
    · simp [List.any_eq_true]
    · intro h
      simp only [Bool.not_eq_true', List.any_eq_false]
      intro i hi
      simpa using h i hi
  exact hmain ((validateJobData now job).1.issues)

/-- Witness for C5 at a record whose issues are warning/info only. -/
theorem validateJobData_valid_iff_error_witness :
    (∀ i ∈ (validateJobData nowC jobC5).1.issues, i.severity ≠ "error") ∧
    (validateJobData nowC jobC5).1.valid = true :=
  ⟨by decide, (validateJobData_valid_iff_error nowC jobC5).2 (by decide)⟩

/-- C1: a call to `collectFromSource` for a source with an in-flight task
returns that task unchanged and starts no adapter run of its own
(`collectStarts` is untouched), and settling a run removes the in-flight
marker regardless of the outcome (result or thrown error). -/
theorem collectFromSource_single_flight (st : OrchState) (sid : String) (t : Nat)
    (outcome : TaskOutcome) (h : lookupActive st sid = some t) :
    collectFromSourceEntry st sid = (CollectEntry.coalesced t, st) ∧
    (collectFromSourceEntry st sid).2.collectStarts = st.collectStarts ∧
    lookupActive (settleRun st sid outcome) sid = none := by
  refine ⟨?_, ?_, ?_⟩
  · simp [collectFromSourceEntry, h]
  · simp [collectFromSourceEntry, h]
  · have hnone : (st.activeTasks.filter (fun p => !(p.1 == sid))).find?
        (fun p => p.1 == sid) = none := by
      apply List.find?_eq_none.mpr
      intro p hp
      have hmem := (List.mem_filter.mp hp).2
      simp at hmem ⊢
      exact hmem
    simp [settleRun, lookupActive, hnone]

/-- Witness for C1 at a state with an in-flight `jobtech` collection and a
run that settles by throwing. -/
theorem collectFromSource_single_flight_witness :
    lookupActive st0C1 "jobtech" = some 7 ∧
    (collectFromSourceEntry st0C1 "jobtech" = (CollectEntry.coalesced 7, st0C1) ∧
     (collectFromSourceEntry st0C1 "jobtech").2.collectStarts = st0C1.collectStarts ∧
     lookupActive (settleRun st0C1 "jobtech" (.thrown "boom")) "jobtech" = none) :=
  ⟨by decide,
   collectFromSource_single_flight st0C1 "jobtech" 7 (.thrown "boom") (by decide)⟩

/-- C7: with the configured `maxRetries = 3, initialDelay = 1000,
backoffFactor = 2` and an endpoint failing three times with 429 before
succeeding, the retry interceptor sleeps 1000ms, 2000ms and 4000ms before the
successful fourth attempt resolves; a run whose error list stays empty gets
status success, so the retries are invisible in the outcome. -/
theorem jobtech_retry_backoff :
    runWithRetry jobTechRetryConfig respondC7 0 = ([1000, 2000, 4000], true) ∧
    (∀ n, collectStatus [] n = "success") := by
  constructor
  · simp [runWithRetry, respondC7, jobTechRetryConfig]
  · intro n
    rfl

/-- C2 (amended): a collected record with at least one error-severity issue
is dropped by the processing block — it neither appears in the result job
list nor in the stored count, and is reflected only in the
validation-failure count; concretely, a record missing `company.name` gets
`valid = false` with exactly one error issue on `company.name`, and the run
result for it has an empty job list, `jobsStored = 0` and
`validationFailures = 1`. -/
theorem error_records_excluded (now : Int) (j : JobData)
    (h : ∃ i ∈ (validateJobData now j).1.issues, i.severity = "error") :
    processCollectedJob now j = (none, true) ∧
    (validateJobData nowC jobC2).1.valid = false ∧
    (validateJobData nowC jobC2).1.issues =
      [mkIssue "company.name" "error" "Company name is required"
        "missing_required_field"] ∧
    (scraperCollect "academic-work" nowC [.ok jobC2]).jobs = [] ∧
    (scraperCollect "academic-work" nowC [.ok jobC2]).jobsStored = 0 ∧
    (scraperCollect "academic-work" nowC [.ok jobC2]).validationFailures = 1 := by
  obtain ⟨i, hi, he⟩ := h
  have hval : (validateJobData now j).1.valid = false := by
    have hany : ((validateJobData now j).1.issues.any fun x => x.severity == "error") = true :=
      List.any_eq_true.mpr ⟨i, hi, by simp [he]⟩
    have hv : (validateJobData now j).1.valid =
        !((validateJobData now j).1.issues.any fun x => x.severity == "error") := rfl
    rw [hv, hany]
    rfl
  have hall : ((validateJobData now j).1.issues.all fun x => !(x.severity == "error")) = false := by
    cases hq : (validateJobData now j).1.issues.all fun x => !(x.severity == "error") with
    | false => rfl
    | true =>
      have := List.all_eq_true.mp hq i hi
      simp [he] at this
  refine ⟨?_, by decide, by decide, by decide, by decide, by decide⟩
  simp [processCollectedJob, hval, hall]

/-- Witness for C2 (amended) at the record missing `company.name`. -/
theorem error_records_excluded_witness :
    (∃ i ∈ (validateJobData nowC jobC2).1.issues, i.severity = "error") ∧
    processCollectedJob nowC jobC2 = (none, true) :=
  ⟨by decide, (error_records_excluded nowC jobC2 (by decide)).1⟩

/-- C2 counterexample: the record missing `company.name` is invalid with one
error issue as the claim says, but it does NOT appear in the result job list
— `result.jobs` is empty, refuting the retention part of the claim. -/
theorem error_record_retained_counterexample :
    (validateJobData nowC jobC2).1.valid = false ∧
    (validateJobData nowC jobC2).1.issues =
      [mkIssue "company.name" "error" "Company name is required"
        "missing_required_field"] ∧
    (scraperCollect "academic-work" nowC [.ok jobC2]).jobs = [] ∧
    (jobtechCollect nowC [] []).jobs = [] := by
  refine ⟨by decide, by decide, by decide, by decide⟩

/-- C8 (amended): when the save call throws on a result with jobs, the block
appends a `save_error` of severity error and never rethrows; the status is
downgraded from success to partial only when the result's `jobsStored` FIELD
is zero — and both adapters set that field to the length of the job list, so
for the results that reach the save block the status is left unchanged. -/
theorem save_failure_handling (result : CollectionResult) (msg : String)
    (h : 0 < result.jobs.length) :
    (saveJobsBlock result (.threw msg)).errors = result.errors ++ [mkSaveError msg] ∧
    (result.jobsStored ≠ 0 →
      (saveJobsBlock result (.threw msg)).status = result.status) ∧
    (result.jobsStored = 0 → result.status = "success" →
      (saveJobsBlock result (.threw msg)).status = "partial") ∧
    (∀ sid now outcomes, (scraperCollect sid now outcomes).jobsStored =
      (scraperCollect sid now outcomes).jobs.length) ∧
    (∀ now ads perr, (jobtechCollect now ads perr).jobsStored =
      (jobtechCollect now ads perr).jobs.length) := by
  refine ⟨?_, ?_, ?_, fun sid now outcomes => rfl, fun now ads perr => rfl⟩
  · simp only [saveJobsBlock, if_pos h]
    split
    · rfl
    · rfl
  · intro h0
    have hb : (result.jobsStored == 0) = false := by simpa using h0
    simp [saveJobsBlock, if_pos h, hb]
  · intro h0 hs
    simp [saveJobsBlock, if_pos h, h0, hs]

/-- Witness for C8 (amended) at a clean one-job scraper result and a thrown
save. -/
theorem save_failure_handling_witness :
    0 < resultC8.jobs.length ∧
    (saveJobsBlock resultC8 (.threw "db down")).errors =
      resultC8.errors ++ [mkSaveError "db down"] :=
  ⟨by decide, (save_failure_handling resultC8 "db down" (by decide)).1⟩

/-- C8 counterexample: a successful one-job run whose persistence then throws
with nothing actually stored keeps status success — the claimed downgrade to
partial does not happen, because the guard reads the adapter-set `jobsStored`
field (here 1), not the actually-stored count (here 0). -/
theorem save_failure_no_downgrade_counterexample :
    resultC8.status = "success" ∧
    resultC8.jobs.length = 1 ∧
    resultC8.jobsStored = 1 ∧
    actuallyStored (SaveOutcome.threw "db down") = 0 ∧
    (saveJobsBlock resultC8 (.threw "db down")).status = "success" ∧
    "success" ≠ "partial" := by
  refine ⟨by decide, by decide, by decide, by decide, by decide, by decide⟩

/-- A job is in the create set iff it is an incoming job without an exact
`(source, externalId)` match among the stored jobs. -/
theorem deduplicate_mem_creates (newJobs existingJobs : List JobDto) (j : JobDto) :
    j ∈ (deduplicate newJobs existingJobs).jobsToCreate ↔
    j ∈ newJobs ∧ hasExactMatch existingJobs j = false := by
  induction newJobs with
  | nil => simp [deduplicate]
  | cons a rest ih =>
    cases ha : hasExactMatch existingJobs a with
    | true =>
      simp only [deduplicate, ha, if_pos]
      rw [ih]
      constructor
      · rintro ⟨hm, hx⟩
        exact ⟨List.mem_cons_of_mem _ hm, hx⟩
      · rintro ⟨hm, hx⟩
        rcases List.mem_cons.mp hm with rfl | hm2
        · rw [ha] at hx
          cases hx
        · exact ⟨hm2, hx⟩
    | false =>
      simp only [deduplicate, ha, Bool.false_eq_true, if_false, List.mem_cons]
      rw [ih]
      constructor
      · rintro (rfl | ⟨hm, hx⟩)
        · exact ⟨Or.inl rfl, ha⟩
        · exact ⟨Or.inr hm, hx⟩
      · rintro ⟨rfl | hm, hx⟩
        · exact Or.inl rfl
        · exact Or.inr ⟨hm, hx⟩

/-- A job is in the update set iff it is an incoming job with an exact
`(source, externalId)` match among the stored jobs. -/
theorem deduplicate_mem_updates (newJobs existingJobs : List JobDto) (j : JobDto) :
    j ∈ (deduplicate newJobs existingJobs).jobsToUpdate ↔
    j ∈ newJobs ∧ hasExactMatch existingJobs j = true := by
  induction newJobs with
  | nil => simp [deduplicate]
  | cons a rest ih =>
    cases ha : hasExactMatch existingJobs a with
    | true =>
      simp only [deduplicate, ha, if_pos, List.mem_cons]
      rw [ih]
      constructor
      · rintro (rfl | ⟨hm, hx⟩)
        · exact ⟨Or.inl rfl, ha⟩
        · exact ⟨Or.inr hm, hx⟩
      · rintro ⟨rfl | hm, hx⟩
        · exact Or.inl rfl
        · exact Or.inr ⟨hm, hx⟩
    | false =>
      simp only [deduplicate, ha, Bool.false_eq_true, if_false]
      rw [ih]
      constructor
      · rintro ⟨hm, hx⟩
        exact ⟨List.mem_cons_of_mem _ hm, hx⟩
      · rintro ⟨hm, hx⟩
        rcases List.mem_cons.mp hm with rfl | hm2
        · rw [ha] at hx
          cases hx
        · exact ⟨hm2, hx⟩

/-- C3 (amended): exact-key matches go to update and never to create,
keyless records go to create and never to update — even when another source
shares the normalized title+company, in which case a stored cross-source
record triggers one log line while the record is still created; but two
records that only share title+company *within the incoming batch*, with no
stored counterpart, produce no log at all (the fuzzy index is built from
stored jobs only). -/
theorem deduplicate_partition (newJobs existingJobs : List JobDto) (j : JobDto)
    (hmem : j ∈ newJobs) :
    (hasExactMatch existingJobs j = true →
      j ∈ (deduplicate newJobs existingJobs).jobsToUpdate ∧
      j ∉ (deduplicate newJobs existingJobs).jobsToCreate) ∧
    (hasExactMatch existingJobs j = false →
      j ∈ (deduplicate newJobs existingJobs).jobsToCreate ∧
      j ∉ (deduplicate newJobs existingJobs).jobsToUpdate) ∧
    deduplicate [r1C3, r2C3] [] =
      { jobsToCreate := [r1C3, r2C3], jobsToUpdate := [], crossSourceLogs := 0 } ∧
    deduplicate [r1C3] [e3C3] =
      { jobsToCreate := [r1C3], jobsToUpdate := [], crossSourceLogs := 1 } := by
  refine ⟨?_, ?_, by decide, by decide⟩
  · intro hx
    constructor
    · exact (deduplicate_mem_updates newJobs existingJobs j).mpr ⟨hmem, hx⟩
    · intro hc
      have := ((deduplicate_mem_creates newJobs existingJobs j).mp hc).2
      rw [hx] at this
      cases this
  · intro hx
    constructor
    · exact (deduplicate_mem_creates newJobs existingJobs j).mpr ⟨hmem, hx⟩
    · intro hu
      have := ((deduplicate_mem_updates newJobs existingJobs j).mp hu).2
      rw [hx] at this
      cases this

/-- Witness for C3 (amended): the first Scenario-1 record has no exact match
and lands in the create set. -/
theorem deduplicate_partition_witness :
    (r1C3 ∈ [r1C3, r2C3] ∧ hasExactMatch [] r1C3 = false) ∧
    (r1C3 ∈ (deduplicate [r1C3, r2C3] []).jobsToCreate ∧
     r1C3 ∉ (deduplicate [r1C3, r2C3] []).jobsToUpdate) :=
  ⟨⟨by decide, by decide⟩,
   (deduplicate_partition [r1C3, r2C3] [] r1C3 (by decide)).2.1 (by decide)⟩

/-- C3 counterexample: for the Scenario-1 batch (two incoming records with
identical title and company from different sources, nothing stored) both
records are created but ZERO cross-source candidates are logged, not one —
the fuzzy lookup consults only the stored records. -/
theorem cross_source_log_counterexample :
    (deduplicate [r1C3, r2C3] []).jobsToCreate = [r1C3, r2C3] ∧
    (deduplicate [r1C3, r2C3] []).jobsToUpdate = [] ∧
    (deduplicate [r1C3, r2C3] []).crossSourceLogs = 0 ∧
    (deduplicate [r1C3, r2C3] []).crossSourceLogs ≠ 1 := by
  refine ⟨by decide, by decide, by decide, by decide⟩

/-- The title component is nonnegative. -/
theorem titlePoints_nonneg (job : JobData) : 0 ≤ titlePoints job := by
  unfold titlePoints
  split_ifs <;> norm_num

/-- The description component is nonnegative. -/
theorem descriptionPoints_nonneg (job : JobData) : 0 ≤ descriptionPoints job := by
  unfold descriptionPoints
  split_ifs <;> norm_num

/-- The company component is nonnegative. -/
theorem companyPoints_nonneg (job : JobData) : 0 ≤ companyPoints job := by
  unfold companyPoints
  split_ifs <;> norm_num

/-- The location component is nonnegative. -/
theorem locationPoints_nonneg (job : JobData) : 0 ≤ locationPoints job := by
  unfold locationPoints
  split_ifs <;> norm_num

/-- The application-details component is nonnegative. -/
theorem applicationPoints_nonneg (job : JobData) : 0 ≤ applicationPoints job := by
  unfold applicationPoints
  split_ifs <;> norm_num

/-- The skills component is nonnegative. -/
theorem skillPoints_nonneg (job : JobData) : 0 ≤ skillPoints job := by
  unfold skillPoints
  split_ifs with hpos
  · refine le_min ?_ (by norm_num)
    positivity
  · norm_num

/-- The relevance component is nonnegative whenever the stored relevance
value is. -/
theorem relevancePoints_nonneg (job : JobData)
    (h : ∀ q, job.metadata.studentRelevanceScore = some q → 0 ≤ q) :
    0 ≤ relevancePoints job := by
  unfold relevancePoints
  cases hm : job.metadata.studentRelevanceScore with
  | none => norm_num
  | some q =>
    have hq := h q hm
    dsimp only
    split_ifs
    · norm_num
    · positivity

/-- The relevance score the validator computes is always nonnegative. -/
theorem relevanceScore_nonneg (job : JobData) : 0 ≤ relevanceScore job := by
  unfold relevanceScore
  positivity

/-- C4 (amended): the quality score always lies in [0, 100] (given the
nonnegative relevance value the pipeline itself stores), and the computed
student relevance score is nonnegative — but it is NOT bounded by 100: the
raw keyword count is uncapped and scaled by 10 (see the counterexample). -/
theorem score_bounds (job : JobData)
    (h : ∀ q, job.metadata.studentRelevanceScore = some q → 0 ≤ q) :
    0 ≤ calculateQualityScore job ∧ calculateQualityScore job ≤ 100 ∧
    0 ≤ relevanceScore job := by
  refine ⟨?_, min_le_right _ _, relevanceScore_nonneg job⟩
  unfold calculateQualityScore
  refine le_min ?_ (by norm_num)
  have h1 := titlePoints_nonneg job
  have h2 := descriptionPoints_nonneg job
  have h3 := companyPoints_nonneg job
  have h4 := locationPoints_nonneg job
  have h5 := applicationPoints_nonneg job
  have h6 := skillPoints_nonneg job
  have h7 := relevancePoints_nonneg job h
  linarith

/-- Witness for C4 (amended) at a job carrying the pipeline-computed
relevance value 20. -/
theorem score_bounds_witness :
    0 ≤ calculateQualityScore jobC4w ∧ calculateQualityScore jobC4w ≤ 100 ∧
    0 ≤ relevanceScore jobC4w :=
  score_bounds jobC4w (by
    intro q hq
    have hq2 : q = 20 := by simpa [jobC4w] using hq.symm
    rw [hq2]
    norm_num)

/-- C4 counterexample: a title containing all seven student keywords yields
the raw count 14, so the relevance score the validator writes into
`metadata.studentRelevanceScore` is 140, above the claimed bound of 100. -/
theorem relevance_exceeds_100_counterexample :
    relevanceRaw jobC4 = 14 ∧
    (validateJobData nowC jobC4).2.metadata.studentRelevanceScore = some 140 ∧
    ¬ ((140 : ℚ) ≤ 100) := by
  have hraw : relevanceRaw jobC4 = 14 := by decide
  refine ⟨hraw, ?_, by norm_num⟩
  have hs : relevanceScore jobC4 = 140 := by
    rw [relevanceScore, hraw]
    norm_num
  show some (relevanceScore jobC4) = some 140
  rw [hs]

/-- On differing fingerprints the detection result is built from the
classified discrepancy list. -/
theorem detectStructuralChanges_changed (sid f newFp : String) (diff : SnapshotDiff)
    (h : (f == newFp) = false) :
    detectStructuralChanges sid (some f) newFp diff =
    { sourceId := sid,
      status :=
        if ((analyzeStructuralChanges diff).filter
            (fun c => c.impact == "high")).isEmpty
        then "minor_changes" else "major_changes",
      changes := analyzeStructuralChanges diff,
      canAdaptAutomatically :=
        ((analyzeStructuralChanges diff).filter (fun c => c.impact == "high")).isEmpty } := by
  simp [detectStructuralChanges, h]

/-- The high-impact filter is empty exactly when no discrepancy is
high-impact. -/
theorem high_filter_isEmpty_iff (A : List StructuralChange) :
    ((A.filter (fun c => c.impact == "high")).isEmpty = true ↔
      ∀ c ∈ A, c.impact ≠ "high") := by
  rw [List.isEmpty_iff]
  rw [List.filter_eq_nil_iff]
  simp

/-- C6: whenever the stored and the new fingerprint differ, the status is
major_changes iff some classified discrepancy is high impact and
minor_changes iff all are low or medium, and canAdaptAutomatically is false
exactly when a high-impact discrepancy exists; a listing page that keeps its
listing selector but drops its detail-link selector yields major_changes,
canAdaptAutomatically = false, and the orchestrator sends a notification. -/
theorem change_status_classification (sid f newFp : String) (diff : SnapshotDiff)
    (h : f ≠ newFp) :
    ((detectStructuralChanges sid (some f) newFp diff).status = "major_changes" ↔
      ∃ c ∈ (detectStructuralChanges sid (some f) newFp diff).changes,
        c.impact = "high") ∧
    ((detectStructuralChanges sid (some f) newFp diff).status = "minor_changes" ↔
      ∀ c ∈ (detectStructuralChanges sid (some f) newFp diff).changes,
        c.impact ≠ "high") ∧
    ((detectStructuralChanges sid (some f) newFp diff).canAdaptAutomatically = false ↔
      ∃ c ∈ (detectStructuralChanges sid (some f) newFp diff).changes,
        c.impact = "high") ∧
    detC6.status = "major_changes" ∧
    detC6.canAdaptAutomatically = false ∧
    detectSourceChangesNotifies detC6 = true := by
  have hne : (f == newFp) = false := by simpa using h
  rw [detectStructuralChanges_changed sid f newFp diff hne]
  refine ⟨?_, ?_, ?_, by decide, by decide, by decide⟩
  · by_cases hb : ((analyzeStructuralChanges diff).filter
        (fun c => c.impact == "high")).isEmpty = true
    · have hall := (high_filter_isEmpty_iff _).mp hb
      have hnex : ¬ ∃ c ∈ analyzeStructuralChanges diff, c.impact = "high" := by
        rintro ⟨c, hc, hi⟩
        exact hall c hc hi
      simp [hb, hnex]
    · have hex : ∃ c ∈ analyzeStructuralChanges diff, c.impact = "high" := by
        by_contra hcon
        push_neg at hcon
        exact hb ((high_filter_isEmpty_iff _).mpr hcon)
      simp only [Bool.not_eq_true] at hb
      simp [hb, hex]
  · by_cases hb : ((analyzeStructuralChanges diff).filter
        (fun c => c.impact == "high")).isEmpty = true
    · have hall := (high_filter_isEmpty_iff _).mp hb
      simp [hb]
      exact hall
    · have hex : ∃ c ∈ analyzeStructuralChanges diff, c.impact = "high" := by
        by_contra hcon
        push_neg at hcon
        exact hb ((high_filter_isEmpty_iff _).mpr hcon)
      obtain ⟨c, hc, hi⟩ := hex
      simp only [Bool.not_eq_true] at hb
      simp only [hb, Bool.false_eq_true, if_false]
      constructor
      · intro hx
        exact absurd hx (by simp)
      · intro hall
        exact absurd hi (hall c hc)
  · by_cases hb : ((analyzeStructuralChanges diff).filter
        (fun c => c.impact == "high")).isEmpty = true
    · have hall := (high_filter_isEmpty_iff _).mp hb
      have hnex : ¬ ∃ c ∈ analyzeStructuralChanges diff, c.impact = "high" := by
        rintro ⟨c, hc, hi⟩
        exact hall c hc hi
      simp [hb, hnex]
    · have hex : ∃ c ∈ analyzeStructuralChanges diff, c.impact = "high" := by
        by_contra hcon
        push_neg at hcon
        exact hb ((high_filter_isEmpty_iff _).mpr hcon)
      simp only [Bool.not_eq_true] at hb
      simp [hb, hex]

/-- Witness for C6 at the dropped-detail-link scenario. -/
theorem change_status_classification_witness :
    ("fp-old" : String) ≠ "fp-new" ∧
    (detC6.status = "major_changes" ∧ detC6.canAdaptAutomatically = false ∧
     detectSourceChangesNotifies detC6 = true) :=
  ⟨by decide,
   (change_status_classification "academic-work" "fp-old" "fp-new" diffC6
      (by decide)).2.2.2⟩

/-- C9 (amended): the orchestrator's `collectFromAllSources` skips disabled
sources and iterates the enabled ones in registration order (its
`SourceConfig` has no priority field), catching each source's exception so
the batch continues, and returns the results of the non-throwing sources in
that order; with three sources where the second throws, the returned list
holds the first and third results and the third still runs.  The separate
`DataCollector.collectFromAllSources` is the function that orders enabled
sources by descending configured priority, but it aggregates no results
(it returns void). -/
theorem collectFromAllSources_batch (registry : List RegSource) :
    (orchCollectAll registry).2.2 =
      (registry.filter (fun s => s.enabled)).map (fun s => s.id) ∧
    (orchCollectAll registry).1 =
      (registry.filter (fun s => s.enabled)).filterMap
        (fun s => match s.behavior with
          | .returns r => some r
          | .throws _ => none) ∧
    orchCollectAll regC9 =
      ([okResult "alpha", okResult "gamma"],
       [collectionError "beta" "boom"],
       ["alpha", "beta", "gamma"]) ∧
    dcCollectFromAllSources dcC9 =
      [("gamma", true), ("beta", false), ("alpha", true)] := by
  refine ⟨?_, ?_, by decide, by decide⟩
  · induction registry with
    | nil => rfl
    | cons s rest ih =>
      cases he : s.enabled
      · simp [orchCollectAll, he, ih]
      · cases hb : s.behavior <;> simp [orchCollectAll, he, hb, ih]
  · induction registry with
    | nil => rfl
    | cons s rest ih =>
      cases he : s.enabled
      · simp [orchCollectAll, he, ih]
      · cases hb : s.behavior <;> simp [orchCollectAll, he, hb, ih]

/-- C9 counterexample: the batch function that returns the aggregated result
list — the orchestrator's — iterates in registration order, not by the
configured priorities: for the same three sources (priorities 1, 2, 3,
registered in that order) the orchestrator processes alpha, beta, gamma,
while the priority-descending order (computed by `DataCollector`, whose own
batch function returns no result list) is gamma, beta, alpha. -/
theorem batch_priority_order_counterexample :
    (orchCollectAll regC9).2.2 = ["alpha", "beta", "gamma"] ∧
    (dcCollectFromAllSources dcC9).map Prod.fst = ["gamma", "beta", "alpha"] ∧
    (orchCollectAll regC9).2.2 ≠ (dcCollectFromAllSources dcC9).map Prod.fst := by
  refine ⟨by decide, by decide, by decide⟩

/-- C10 (amended): the validator overwrites
`metadata.studentRelevanceScore` with its own computed value on every
record, regardless of what the source supplied; the JobTech mapper never
sets `qualityScore` (the ad has no such field), and every job the processing
loop emits still has `qualityScore` unset, so the repository stores the
default 0 — the stored quality score is never a source value, but it is not
the normalizer's recomputation either: `normalizeJobData` is not invoked on
the collection path. -/
theorem scores_recomputation :
    (∀ (now : Int) (job : JobData),
      ((validateJobData now job).2).metadata.studentRelevanceScore =
        some (relevanceScore job)) ∧
    (∀ (now : Int) (ad : JobTechAd), (jobtechToJobData now ad).qualityScore = none) ∧
    (∀ (now : Int) (ad : JobTechAd) (j : JobData),
      (processCollectedJob now (jobtechToJobData now ad)).1 = some j →
      j.qualityScore = none ∧ storedQualityScore j = 0) := by
  refine ⟨fun now job => rfl, fun now ad => rfl, ?_⟩
  intro now ad j hj
  have hq : j.qualityScore = none := by
    unfold processCollectedJob at hj
    dsimp only at hj
    split at hj
    · simp only [Prod.fst] at hj
      rw [Option.some_inj] at hj
      rw [← hj]
      rfl
    · split at hj
      · simp only [Prod.fst] at hj
        rw [Option.some_inj] at hj
        rw [← hj]
        rfl
      · simp at hj
  refine ⟨hq, ?_⟩
  simp [storedQualityScore, hq]

/-- Witness for C10 (amended) at the concrete JobTech ad. -/
theorem scores_recomputation_witness :
    (processCollectedJob nowC (jobtechToJobData nowC adC10)).1 = some jC10 ∧
    jC10.qualityScore = none ∧ storedQualityScore jC10 = 0 := by
  have hv : (validateJobData nowC (jobtechToJobData nowC adC10)).1.valid = true := by
    decide
  have hp : (processCollectedJob nowC (jobtechToJobData nowC adC10)).1 = some jC10 := by
    simp [processCollectedJob, hv, jC10]
  exact ⟨hp, (scores_recomputation.2.2 nowC adC10 jC10 hp).1,
    (scores_recomputation.2.2 nowC adC10 jC10 hp).2⟩

/-- C10 counterexample: the job emitted for the concrete JobTech ad carries
no quality score at all — `qualityScore` is `none`, the repository stores
the default 0 — while the normalizer's `calculateQualityScore`, had it been
invoked, would compute 20 for this record; so the stored quality score is
not a value recomputed by the normalizer. -/
theorem quality_not_recomputed_counterexample :
    jC10.qualityScore = none ∧
    storedQualityScore jC10 = 0 ∧
    calculateQualityScore jC10 = 20 ∧
    jC10.qualityScore ≠ some (calculateQualityScore jC10) ∧
    (0 : ℚ) ≠ 20 := by
  have hq : jC10.qualityScore = none := rfl
  have hT : titlePoints jC10 = 10 := by
    have ht1 : (jC10.title == "") = false := by decide
    have ht2 : ¬(20 < jC10.title.length ∧ jC10.title.length < 100) := by decide
    have ht3 : 10 < jC10.title.length := by decide
    simp [titlePoints, ht1, ht2, ht3]
  have hD : descriptionPoints jC10 = 5 := by
    have hd1 : (jC10.description == "") = false := by decide
    have hd2 : ¬(500 < jC10.description.length) := by decide
    have hd3 : ¬(200 < jC10.description.length) := by decide
    have hd4 : ¬(100 < jC10.description.length) := by decide
    simp [descriptionPoints, hd1, hd2, hd3, hd4]
  have hC : companyPoints jC10 = 3 := by
    have hc1 : (jC10.company.name == "") = false := by decide
    have hc2 : optTruthy jC10.company.website = false := by decide
    have hc3 : (optTruthy jC10.company.email || optTruthy jC10.company.phone) = false := by
      decide
    simp [companyPoints, hc1, hc2, hc3]
  have hL : locationPoints jC10 = 0 := by
    have hl1 : optTruthy jC10.location.city = false := by decide
    have hl2 : optTruthy jC10.location.address = false := by decide
    have hl3 : jC10.location.coordinates.isSome = false := by decide
    simp [locationPoints, hl1, hl2, hl3]
  have hA : applicationPoints jC10 = 0 := by
    have ha1 : (optTruthy jC10.applicationDetails.url ||
        optTruthy jC10.applicationDetails.email) = false := by decide
    have ha2 : dateTruthy jC10.applicationDetails.deadlineDate = false := by decide
    simp [applicationPoints, ha1, ha2]
  have hS : skillPoints jC10 = 0 := by
    have hs1 : ¬(0 < jC10.skills.length) := by decide
    simp [skillPoints, hs1]
  have hraw : relevanceRaw (jobtechToJobData nowC adC10) = 2 := by decide
  have hrs : relevanceScore (jobtechToJobData nowC adC10) = 20 := by
    rw [relevanceScore, hraw]
    norm_num
  have hm : jC10.metadata.studentRelevanceScore =
      some (relevanceScore (jobtechToJobData nowC adC10)) := rfl
  have hR : relevancePoints jC10 = 2 := by
    unfold relevancePoints
    rw [hm, hrs]
    norm_num [beq_iff_eq]
  have hQ : calculateQualityScore jC10 = 20 := by
    unfold calculateQualityScore
    rw [hT, hD, hC, hL, hA, hS, hR]
    norm_num [min_def]
  refine ⟨hq, ?_, hQ, ?_, by norm_num⟩
  · simp [storedQualityScore, hq]
  · rw [hq]
    simp
